import Mathlib

/-!
Verification of the karpenter-cdk infrastructure repository.

This file shallowly embeds the three pure assembly components of the
repository and proves the specified properties about them:

* the IAM controller-policy assembler, embedded from the `statements`
  array of the `KarpenterControllerPolicy` construct
  (src/karpenter-cdk/lib/karpenter-controller-policy.ts, lines 38-322);
* the manifest deployment-graph builder, embedded from the
  `cluster.addManifest` / `node.addDependency` calls of `KarpenterStack`
  (src/karpenter-cdk/lib/karpenter-stack.ts, lines 101-417);
* the template renderer used by the Terraform `template_file` data source
  for the node-group userdata script (src/unnamed/part_001).
-/

/-- Effect of an IAM policy statement (`iam.Effect.ALLOW` / `iam.Effect.DENY`). -/
inductive Effect where
  | allow
  | deny
deriving DecidableEq, Repr

/-- A condition value in an IAM statement: either a single string or a list
of strings, mirroring the JSON values used in the source. -/
inductive CondVal where
  | s (v : String)
  | l (vs : List String)
deriving DecidableEq, Repr

/-- An IAM permission statement, mirroring the fields of
`iam.PolicyStatement` that the source sets: `sid`, `effect`, `resources`,
`actions` and `conditions`.  Conditions are an ordered association list
from condition operator to an ordered association list of key/value pairs,
in the insertion order of the source object literals. -/
structure PolicyStatement where
  sid : String
  effect : Effect
  resources : List String
  actions : List String
  conditions : List (String × List (String × CondVal)) := []
deriving DecidableEq, Repr

/-- The CDK pseudo parameters `cdk.Aws.PARTITION`, `cdk.Aws.REGION` and
`cdk.Aws.ACCOUNT_ID` that the policy statements interpolate.  They are
resolved by the deployment environment, so the embedding passes them
explicitly. -/
structure AwsEnv where
  partition : String
  region : String
  accountId : String
deriving DecidableEq, Repr

/-- The statements array of the `KarpenterControllerPolicy` construct
(src/karpenter-cdk/lib/karpenter-controller-policy.ts, lines 38-322),
as a function of the three string props `clusterName`,
`karpenterInterruptionQueueArn` and `karpenterNodeRoleArn` (and the CDK
pseudo parameters).  This is the `buildControllerPolicy` contract of the
specification. -/
def buildControllerPolicy (env : AwsEnv)
    (clusterName karpenterInterruptionQueueArn karpenterNodeRoleArn : String) :
    List PolicyStatement :=
  [ { sid := "AllowScopedEC2InstanceAccessActions"
      effect := Effect.allow
      resources :=
        [ "arn:" ++ env.partition ++ ":ec2:" ++ env.region ++ "::image/*"
        , "arn:" ++ env.partition ++ ":ec2:" ++ env.region ++ "::snapshot/*"
        , "arn:" ++ env.partition ++ ":ec2:" ++ env.region ++ ":*:security-group/*"
        , "arn:" ++ env.partition ++ ":ec2:" ++ env.region ++ ":*:subnet/*"
        , "arn:" ++ env.partition ++ ":ec2:" ++ env.region ++ ":*:capacity-reservation/*" ]
      actions := ["ec2:RunInstances", "ec2:CreateFleet"] }
  , { sid := "AllowScopedEC2LaunchTemplateAccessActions"
      effect := Effect.allow
      resources := ["arn:" ++ env.partition ++ ":ec2:" ++ env.region ++ ":*:launch-template/*"]
      actions := ["ec2:RunInstances", "ec2:CreateFleet"]
      conditions :=
        [ ("StringEquals",
            [("aws:ResourceTag/kubernetes.io/cluster/" ++ clusterName, CondVal.s "owned")])
        , ("StringLike",
            [("aws:ResourceTag/karpenter.sh/nodepool", CondVal.s "*")]) ] }
  , { sid := "AllowScopedEC2InstanceActionsWithTags"
      effect := Effect.allow
      resources :=
        [ "arn:" ++ env.partition ++ ":ec2:" ++ env.region ++ ":*:fleet/*"
        , "arn:" ++ env.partition ++ ":ec2:" ++ env.region ++ ":*:instance/*"
        , "arn:" ++ env.partition ++ ":ec2:" ++ env.region ++ ":*:volume/*"
        , "arn:" ++ env.partition ++ ":ec2:" ++ env.region ++ ":*:network-interface/*"
        , "arn:" ++ env.partition ++ ":ec2:" ++ env.region ++ ":*:launch-template/*"
        , "arn:" ++ env.partition ++ ":ec2:" ++ env.region ++ ":*:spot-instances-request/*" ]
      actions := ["ec2:RunInstances", "ec2:CreateFleet", "ec2:CreateLaunchTemplate"]
      conditions :=
        [ ("StringEquals",
            [ ("aws:RequestTag/kubernetes.io/cluster/" ++ clusterName, CondVal.s "owned")
            , ("aws:RequestTag/eks:eks-cluster-name", CondVal.s clusterName) ])
        , ("StringLike",
            [("aws:RequestTag/karpenter.sh/nodepool", CondVal.s "*")]) ] }
  , { sid := "AllowScopedResourceCreationTagging"
      effect := Effect.allow
      resources :=
        [ "arn:" ++ env.partition ++ ":ec2:" ++ env.region ++ ":*:fleet/*"
        , "arn:" ++ env.partition ++ ":ec2:" ++ env.region ++ ":*:instance/*"
        , "arn:" ++ env.partition ++ ":ec2:" ++ env.region ++ ":*:volume/*"
        , "arn:" ++ env.partition ++ ":ec2:" ++ env.region ++ ":*:network-interface/*"
        , "arn:" ++ env.partition ++ ":ec2:" ++ env.region ++ ":*:launch-template/*"
        , "arn:" ++ env.partition ++ ":ec2:" ++ env.region ++ ":*:spot-instances-request/*" ]
      actions := ["ec2:CreateTags"]
      conditions :=
        [ ("StringEquals",
            [ ("aws:RequestTag/kubernetes.io/cluster/" ++ clusterName, CondVal.s "owned")
            , ("aws:RequestTag/eks:eks-cluster-name", CondVal.s clusterName)
            , ("ec2:CreateAction",
                CondVal.l ["RunInstances", "CreateFleet", "CreateLaunchTemplate"]) ])
        , ("StringLike",
            [("aws:RequestTag/karpenter.sh/nodepool", CondVal.s "*")]) ] }
  , { sid := "AllowScopedResourceTagging"
      effect := Effect.allow
      resources := ["arn:" ++ env.partition ++ ":ec2:" ++ env.region ++ ":*:instance/*"]
      actions := ["ec2:CreateTags"]
      conditions :=
        [ ("StringEquals",
            [("aws:ResourceTag/kubernetes.io/cluster/" ++ clusterName, CondVal.s "owned")])
        , ("StringLike",
            [("aws:ResourceTag/karpenter.sh/nodepool", CondVal.s "*")])
        , ("StringEqualsIfExists",
            [("aws:RequestTag/eks:eks-cluster-name", CondVal.s clusterName)])
        , ("ForAllValues:StringEquals",
            [("aws:TagKeys",
                CondVal.l ["eks:eks-cluster-name", "karpenter.sh/nodeclaim", "Name"])]) ] }
  , { sid := "AllowScopedDeletion"
      effect := Effect.allow
      resources :=
        [ "arn:" ++ env.partition ++ ":ec2:" ++ env.region ++ ":*:instance/*"
        , "arn:" ++ env.partition ++ ":ec2:" ++ env.region ++ ":*:launch-template/*" ]
      actions := ["ec2:TerminateInstances", "ec2:DeleteLaunchTemplate"]
      conditions :=
        [ ("StringEquals",
            [("aws:ResourceTag/kubernetes.io/cluster/" ++ clusterName, CondVal.s "owned")])
        , ("StringLike",
            [("aws:ResourceTag/karpenter.sh/nodepool", CondVal.s "*")]) ] }
  , { sid := "AllowRegionalReadActions"
      effect := Effect.allow
      resources := ["*"]
      actions :=
        [ "ec2:DescribeCapacityReservations"
        , "ec2:DescribeImages"
        , "ec2:DescribeInstances"
        , "ec2:DescribeInstanceTypeOfferings"
        , "ec2:DescribeInstanceTypes"
        , "ec2:DescribeLaunchTemplates"
        , "ec2:DescribeSecurityGroups"
        , "ec2:DescribeSpotPriceHistory"
        , "ec2:DescribeSubnets" ]
      conditions :=
        [("StringEquals", [("aws:RequestedRegion", CondVal.s env.region)])] }
  , { sid := "AllowSSMReadActions"
      effect := Effect.allow
      resources :=
        ["arn:" ++ env.partition ++ ":ssm:" ++ env.region ++ "::parameter/aws/service/*"]
      actions := ["ssm:GetParameter"] }
  , { sid := "AllowPricingReadActions"
      effect := Effect.allow
      resources := ["*"]
      actions := ["pricing:GetProducts"] }
  , { sid := "AllowInterruptionQueueActions"
      effect := Effect.allow
      resources := [karpenterInterruptionQueueArn]
      actions := ["sqs:DeleteMessage", "sqs:GetQueueUrl", "sqs:ReceiveMessage"] }
  , { sid := "AllowPassingInstanceRole"
      effect := Effect.allow
      resources := [karpenterNodeRoleArn]
      actions := ["iam:PassRole"]
      conditions :=
        [("StringEquals",
            [("iam:PassedToService",
                CondVal.l ["ec2.amazonaws.com", "ec2.amazonaws.com.cn"])])] }
  , { sid := "AllowScopedInstanceProfileCreationActions"
      effect := Effect.allow
      resources :=
        ["arn:" ++ env.partition ++ ":iam::" ++ env.accountId ++ ":instance-profile/*"]
      actions := ["iam:CreateInstanceProfile"]
      conditions :=
        [ ("StringEquals",
            [ ("aws:RequestTag/kubernetes.io/cluster/" ++ clusterName, CondVal.s "owned")
            , ("aws:RequestTag/eks:eks-cluster-name", CondVal.s clusterName)
            , ("aws:RequestTag/topology.kubernetes.io/region", CondVal.s env.region) ])
        , ("StringLike",
            [("aws:RequestTag/karpenter.k8s.aws/ec2nodeclass", CondVal.s "*")]) ] }
  , { sid := "AllowScopedInstanceProfileTagActions"
      effect := Effect.allow
      resources :=
        ["arn:" ++ env.partition ++ ":iam::" ++ env.accountId ++ ":instance-profile/*"]
      actions := ["iam:TagInstanceProfile"]
      conditions :=
        [ ("StringEquals",
            [ ("aws:ResourceTag/kubernetes.io/cluster/" ++ clusterName, CondVal.s "owned")
            , ("aws:ResourceTag/topology.kubernetes.io/region", CondVal.s env.region)
            , ("aws:RequestTag/kubernetes.io/cluster/" ++ clusterName, CondVal.s "owned")
            , ("aws:RequestTag/eks:eks-cluster-name", CondVal.s clusterName)
            , ("aws:RequestTag/topology.kubernetes.io/region", CondVal.s env.region) ])
        , ("StringLike",
            [ ("aws:ResourceTag/karpenter.k8s.aws/ec2nodeclass", CondVal.s "*")
            , ("aws:RequestTag/karpenter.k8s.aws/ec2nodeclass", CondVal.s "*") ]) ] }
  , { sid := "AllowScopedInstanceProfileActions"
      effect := Effect.allow
      resources :=
        ["arn:" ++ env.partition ++ ":iam::" ++ env.accountId ++ ":instance-profile/*"]
      actions :=
        [ "iam:AddRoleToInstanceProfile"
        , "iam:RemoveRoleFromInstanceProfile"
        , "iam:DeleteInstanceProfile" ]
      conditions :=
        [ ("StringEquals",
            [ ("aws:ResourceTag/kubernetes.io/cluster/" ++ clusterName, CondVal.s "owned")
            , ("aws:ResourceTag/topology.kubernetes.io/region", CondVal.s env.region) ])
        , ("StringLike",
            [("aws:ResourceTag/karpenter.k8s.aws/ec2nodeclass", CondVal.s "*")]) ] }
  , { sid := "AllowInstanceProfileReadActions"
      effect := Effect.allow
      resources :=
        ["arn:" ++ env.partition ++ ":iam::" ++ env.accountId ++ ":instance-profile/*"]
      actions := ["iam:GetInstanceProfile"] }
  , { sid := "AllowAPIServerEndpointDiscovery"
      effect := Effect.allow
      resources :=
        ["arn:" ++ env.partition ++ ":eks:" ++ env.region ++ ":" ++ env.accountId
          ++ ":cluster/" ++ clusterName]
      actions := ["eks:DescribeCluster"] } ]

/-- Look a statement up by its `sid` in a policy. -/
def findStatement (policy : List PolicyStatement) (sid : String) : Option PolicyStatement :=
  policy.find? fun st => st.sid == sid

/-- A concrete deployment environment used for witnesses. -/
def demoEnv : AwsEnv :=
  { partition := "aws", region := "us-west-2", accountId := "123456789012" }

/-- The configuration a `KarpenterStack` instance closes over: the cluster
name, the cluster endpoint, the stack region, the interruption queue name,
the controller role ARN and the node role name
(src/karpenter-cdk/lib/karpenter-stack.ts). -/
structure KarpenterConfig where
  clusterName : String
  clusterEndpoint : String
  region : String
  queueName : String
  controllerRoleArn : String
  nodeRoleName : String
deriving DecidableEq, Repr

/-- A manifest node of the deployment graph: the `ManifestNode` of the
specification.  `id` is the construct id passed to `cluster.addManifest`,
`kind`/`name`/`nsName` are the manifest `kind` and `metadata`
(`nsName` is `metadata.namespace`, empty for cluster-scoped objects), and
`dependsOn` records the construct ids passed to `node.addDependency`.
Manifest bodies beyond the identity and the service-account annotations
are not needed by any verified property and are omitted. -/
structure ManifestNode where
  id : String
  kind : String
  name : String
  nsName : String
  annotations : List (String × String) := []
  dependsOn : List String := []
deriving DecidableEq, Repr

/-- The manifest nodes created by `KarpenterStack`, in source order
(src/karpenter-cdk/lib/karpenter-stack.ts, lines 101-417), with the
dependency edges added by `node.addDependency` (lines 289-292 and
415-417).  This is the `buildDeploymentGraph` contract of the
specification. -/
def buildDeploymentGraph (cfg : KarpenterConfig) : List ManifestNode :=
  [ { id := "KarpenterNamespace", kind := "Namespace"
      name := "karpenter", nsName := "" }
  , { id := "KarpenterServiceAccount", kind := "ServiceAccount"
      name := "karpenter", nsName := "karpenter"
      annotations := [("eks.amazonaws.com/role-arn", cfg.controllerRoleArn)]
      dependsOn := ["KarpenterNamespace"] }
  , { id := "KarpenterController", kind := "ConfigMap"
      name := "karpenter-install-script", nsName := "karpenter"
      dependsOn := ["KarpenterServiceAccount"] }
  , { id := "KarpenterInstallerRole", kind := "ClusterRole"
      name := "karpenter-installer", nsName := "" }
  , { id := "KarpenterInstallerRoleBinding", kind := "ClusterRoleBinding"
      name := "karpenter-installer", nsName := "" }
  , { id := "KarpenterInstallJob", kind := "Job"
      name := "karpenter-installer", nsName := "karpenter"
      dependsOn := ["KarpenterController"] }
  , { id := "DefaultNodePool", kind := "NodePool"
      name := "default", nsName := "karpenter"
      dependsOn := ["KarpenterInstallJob"] }
  , { id := "DefaultNodeClass", kind := "EC2NodeClass"
      name := "default", nsName := "karpenter"
      dependsOn := ["KarpenterInstallJob"] } ]

/-- The `dependsOn` edge list of a graph: one pair `(n.id, d)` per
dependency `d` of each node `n`, in node order. -/
def edges : List ManifestNode → List (String × String)
  | [] => []
  | n :: rest => (n.dependsOn.map fun d => (n.id, d)) ++ edges rest

/-- The `dependsOn` edge relation of a graph. -/
def DependsOn (g : List ManifestNode) (a b : String) : Prop :=
  (a, b) ∈ edges g

/-- Look a node up by its construct id. -/
def findNode (g : List ManifestNode) (i : String) : Option ManifestNode :=
  g.find? fun n => n.id == i

/-- A rank function on construct ids that strictly decreases along every
`dependsOn` edge of the deployment graph; it witnesses acyclicity. -/
def nodeRank : String → Nat
  | "KarpenterServiceAccount" => 1
  | "KarpenterController" => 2
  | "KarpenterInstallJob" => 3
  | "DefaultNodePool" => 4
  | "DefaultNodeClass" => 4
  | _ => 0

/-- A concrete configuration for the cluster named `demo`, used for the
graph claims stated at cluster name `demo` and for witnesses. -/
def demoConfig : KarpenterConfig :=
  { clusterName := "demo"
    clusterEndpoint := "https://ABCDEF0123456789.gr7.us-west-2.eks.amazonaws.com"
    region := "us-west-2"
    queueName := "Karpenter-demo"
    controllerRoleArn := "arn:aws:iam::123456789012:role/KarpenterControllerRole-demo"
    nodeRoleName := "KarpenterNodeInstanceRole-demo" }

/-- A parsed template: literal text interleaved with placeholder
references, the placeholders being the interpolation sequences of the
template file. -/
inductive TemplatePart where
  | lit (s : String)
  | var (name : String)
deriving DecidableEq, Repr

/-- The error a template rendering can fail with. -/
inductive RenderError where
  | MissingVariable (name : String)
deriving DecidableEq, Repr

/-- Look a variable up in the supplied variable mapping. -/
def lookupVar (vars : List (String × String)) (k : String) : Option String :=
  (vars.find? fun p => p.1 == k).map Prod.snd

/-- Modelled from the spec: the template rendering engine behind the
Terraform `template_file` data source (src/unnamed/part_001, lines 4-9)
is external tooling and is not part of this repository, so it is modelled
from the specification contract `renderTemplate(templateId, variables) ->
text`: pure string substitution that fails with `MissingVariable` if a
referenced placeholder has no supplied value. -/
def renderTemplate : List TemplatePart → List (String × String) →
    Except RenderError String
  | [], _ => Except.ok ""
  | TemplatePart.lit s :: rest, vars =>
      Except.map (fun t => s ++ t) (renderTemplate rest vars)
  | TemplatePart.var n :: rest, vars =>
      match lookupVar vars n with
      | some v => Except.map (fun t => v ++ t) (renderTemplate rest vars)
      | none => Except.error (RenderError.MissingVariable n)

/-- Literal text of `node-group-userdata.sh` (src/unnamed/part_001) up to
the first interpolation sequence of the file. -/
def userDataChunkA : String :=
  "#!/bin/bash\n"
  ++ "\n"
  ++ "# EKS Node Group User Data Script for Podman/Rootless Container Support\n"
  ++ "# This script configures EKS nodes to support rootless container builds\n"
  ++ "\n"
  ++ "set -e\n"
  ++ "\n"
  ++ "# Enable user namespaces (required for rootless containers)\n"
  ++ "echo \"Enabling user namespaces...\"\n"
  ++ "echo \x27user.max_user_namespaces = 65536\x27 >> /etc/sysctl.conf\n"
  ++ "echo \x27user.max_pid_namespaces = 65536\x27 >> /etc/sysctl.conf\n"
  ++ "echo \x27user.max_net_namespaces = 65536\x27 >> /etc/sysctl.conf\n"
  ++ "sysctl -p\n"
  ++ "\n"
  ++ "# Install fuse-overlayfs (required for rootless overlay storage)\n"
  ++ "echo \"Installing fuse-overlayfs...\"\n"
  ++ "yum update -y\n"
  ++ "yum install -y fuse-overlayfs\n"
  ++ "\n"
  ++ "# Install crun (modern container runtime with better rootless support)\n"
  ++ "echo \"Installing crun...\"\n"
  ++ "CRUN_VERSION=\"1.8.7\"\n"
  ++ "curl -L \"https://github.com/containers/crun/releases/download/"

/-- Literal text of `node-group-userdata.sh` between the two
`CRUN_VERSION` interpolation sequences. -/
def userDataChunkB : String := "/crun-"

/-- Literal text of `node-group-userdata.sh` between the second
`CRUN_VERSION` interpolation sequence and the `CLUSTER_NAME`
interpolation sequence of the bootstrap invocation line. -/
def userDataChunkC : String :=
  "-linux-amd64\" \\\n"
  ++ "    -o /usr/local/bin/crun\n"
  ++ "chmod +x /usr/local/bin/crun\n"
  ++ "\n"
  ++ "# Configure containerd to use crun\n"
  ++ "echo \"Configuring containerd for crun...\"\n"
  ++ "mkdir -p /etc/containerd/\n"
  ++ "cat > /etc/containerd/config.toml << \x27EOF\x27\n"
  ++ "version = 2\n"
  ++ "\n"
  ++ "[plugins]\n"
  ++ "  [plugins.\"io.containerd.grpc.v1.cri\"]\n"
  ++ "    [plugins.\"io.containerd.grpc.v1.cri\".containerd]\n"
  ++ "      [plugins.\"io.containerd.grpc.v1.cri\".containerd.runtimes]\n"
  ++ "        [plugins.\"io.containerd.grpc.v1.cri\".containerd.runtimes.runc]\n"
  ++ "          runtime_type = \"io.containerd.runc.v2\"\n"
  ++ "          [plugins.\"io.containerd.grpc.v1.cri\".containerd.runtimes.runc.options]\n"
  ++ "            BinaryName = \"/usr/local/bin/crun\"\n"
  ++ "        [plugins.\"io.containerd.grpc.v1.cri\".containerd.runtimes.crun]\n"
  ++ "          runtime_type = \"io.containerd.runc.v2\"\n"
  ++ "          [plugins.\"io.containerd.grpc.v1.cri\".containerd.runtimes.crun.options]\n"
  ++ "            BinaryName = \"/usr/local/bin/crun\"\n"
  ++ "EOF\n"
  ++ "\n"
  ++ "# Set up subuid/subgid ranges for rootless containers\n"
  ++ "echo \"Setting up subuid/subgid ranges...\"\n"
  ++ "echo \x27ec2-user:100000:65536\x27 >> /etc/subuid\n"
  ++ "echo \x27ec2-user:100000:65536\x27 >> /etc/subgid\n"
  ++ "\n"
  ++ "# Create systemd user directory for rootless services\n"
  ++ "echo \"Setting up systemd user directories...\"\n"
  ++ "mkdir -p /etc/systemd/user\n"
  ++ "mkdir -p /var/lib/systemd/linger\n"
  ++ "\n"
  ++ "# Enable lingering for ec2-user (allows user services to run without login)\n"
  ++ "loginctl enable-linger ec2-user || true\n"
  ++ "\n"
  ++ "# Install additional tools for container builds\n"
  ++ "echo \"Installing build tools...\"\n"
  ++ "yum install -y \\\n"
  ++ "    git \\\n"
  ++ "    tar \\\n"
  ++ "    gzip \\\n"
  ++ "    which \\\n"
  ++ "    curl \\\n"
  ++ "    wget\n"
  ++ "\n"
  ++ "# Configure kernel parameters for better container performance\n"
  ++ "echo \"Configuring kernel parameters...\"\n"
  ++ "cat >> /etc/sysctl.conf << \x27EOF\x27\n"
  ++ "# Container optimizations\n"
  ++ "fs.inotify.max_user_watches = 524288\n"
  ++ "fs.inotify.max_user_instances = 512\n"
  ++ "kernel.keys.maxkeys = 2000\n"
  ++ "kernel.keys.maxbytes = 2000000\n"
  ++ "EOF\n"
  ++ "sysctl -p\n"
  ++ "\n"
  ++ "# Set up storage optimization\n"
  ++ "echo \"Optimizing storage for container builds...\"\n"
  ++ "# Create dedicated partition for container storage if additional EBS volume is attached\n"
  ++ "if [ -b /dev/nvme1n1 ]; then\n"
  ++ "    mkfs.ext4 /dev/nvme1n1\n"
  ++ "    mkdir -p /var/lib/containers\n"
  ++ "    mount /dev/nvme1n1 /var/lib/containers\n"
  ++ "    echo \x27/dev/nvme1n1 /var/lib/containers ext4 defaults,noatime 0 2\x27 >> /etc/fstab\n"
  ++ "    chmod 755 /var/lib/containers\n"
  ++ "fi\n"
  ++ "\n"
  ++ "# Restart containerd to pick up new configuration\n"
  ++ "systemctl restart containerd\n"
  ++ "\n"
  ++ "# Label the node for podman workloads\n"
  ++ "echo \"Node setup complete for rootless container builds\"\n"
  ++ "\n"
  ++ "# Bootstrap EKS node (this must be last)\n"
  ++ "/etc/eks/bootstrap.sh "

/-- Literal text of `node-group-userdata.sh` after the `CLUSTER_NAME`
interpolation sequence, to the end of the file. -/
def userDataChunkD : String :=
  " \\\n"
  ++ "    --container-runtime containerd \\\n"
  ++ "    --kubelet-extra-args \x27--node-labels=node-type=builder,podman-enabled=true\x27"

/-- The `node-group-userdata.sh` script file (src/unnamed/part_001,
lines 298-398) as a template: its literal text with the interpolation
sequences of the file as placeholders.  The file references
`CRUN_VERSION` twice (inside the crun download URL) and `CLUSTER_NAME`
once (on the bootstrap invocation line). -/
def nodeGroupUserdataTemplate : List TemplatePart :=
  [ TemplatePart.lit userDataChunkA
  , TemplatePart.var "CRUN_VERSION"
  , TemplatePart.lit userDataChunkB
  , TemplatePart.var "CRUN_VERSION"
  , TemplatePart.lit userDataChunkC
  , TemplatePart.var "CLUSTER_NAME"
  , TemplatePart.lit userDataChunkD ]

/-- The variable mapping the `template_file.user_data` data source
supplies (src/unnamed/part_001, lines 4-9): only `CLUSTER_NAME`. -/
def templateFileUserDataVars (cluster_name : String) : List (String × String) :=
  [("CLUSTER_NAME", cluster_name)]

/-- C2: for every triple of input strings, `buildControllerPolicy` returns
a statement sequence of the same fixed length, 16, and the statement
sequence is a deterministic function of the inputs: two calls with equal
inputs yield equal statement sequences. -/
theorem buildControllerPolicy_fixed_length_deterministic
    (env : AwsEnv) (c q r c' q' r' : String)
    (hc : c = c') (hq : q = q') (hr : r = r') :
    (buildControllerPolicy env c q r).length = 16 ∧
      buildControllerPolicy env c q r = buildControllerPolicy env c' q' r' := by
  subst hc; subst hq; subst hr
  exact ⟨rfl, rfl⟩

/-- Witness for C2 at a concrete input triple. -/
theorem buildControllerPolicy_fixed_length_deterministic_witness :
    (buildControllerPolicy demoEnv "demo" "arn:aws:sqs:us-west-2:123:Karpenter-demo"
        "arn:aws:iam::123456789012:role/KarpenterNodeInstanceRole-demo").length = 16 ∧
      buildControllerPolicy demoEnv "demo" "arn:aws:sqs:us-west-2:123:Karpenter-demo"
          "arn:aws:iam::123456789012:role/KarpenterNodeInstanceRole-demo" =
        buildControllerPolicy demoEnv "demo" "arn:aws:sqs:us-west-2:123:Karpenter-demo"
          "arn:aws:iam::123456789012:role/KarpenterNodeInstanceRole-demo" :=
  buildControllerPolicy_fixed_length_deterministic demoEnv _ _ _ _ _ _ rfl rfl rfl

/-- C5: when `buildControllerPolicy` is called with interruption queue ARN
`arn:aws:sqs:us-west-2:123:Karpenter-demo`, the statement with sid
`AllowInterruptionQueueActions` has resource list exactly that one-element
ARN list, for every cluster name, node role ARN and environment. -/
theorem allowInterruptionQueueActions_resources_exact
    (env : AwsEnv) (clusterName karpenterNodeRoleArn : String) :
    (findStatement
        (buildControllerPolicy env clusterName
          "arn:aws:sqs:us-west-2:123:Karpenter-demo" karpenterNodeRoleArn)
        "AllowInterruptionQueueActions").map PolicyStatement.resources =
      some ["arn:aws:sqs:us-west-2:123:Karpenter-demo"] := rfl

/-- C9: `buildControllerPolicy` is total: on every triple of input strings
(including empty or malformed ARNs, which are not validated) it returns
the constructed 16-statement sequence, whose sids are the fixed list
below. -/
theorem buildControllerPolicy_total_sids (env : AwsEnv) (c q r : String) :
    (buildControllerPolicy env c q r).map PolicyStatement.sid =
      [ "AllowScopedEC2InstanceAccessActions"
      , "AllowScopedEC2LaunchTemplateAccessActions"
      , "AllowScopedEC2InstanceActionsWithTags"
      , "AllowScopedResourceCreationTagging"
      , "AllowScopedResourceTagging"
      , "AllowScopedDeletion"
      , "AllowRegionalReadActions"
      , "AllowSSMReadActions"
      , "AllowPricingReadActions"
      , "AllowInterruptionQueueActions"
      , "AllowPassingInstanceRole"
      , "AllowScopedInstanceProfileCreationActions"
      , "AllowScopedInstanceProfileTagActions"
      , "AllowScopedInstanceProfileActions"
      , "AllowInstanceProfileReadActions"
      , "AllowAPIServerEndpointDiscovery" ] := rfl

/-- C10: every statement in the sequence returned by
`buildControllerPolicy`, for every input triple, has effect Allow; the
controller policy contains no Deny statement. -/
theorem buildControllerPolicy_all_statements_allow
    (env : AwsEnv) (c q r : String) (st : PolicyStatement)
    (h : st ∈ buildControllerPolicy env c q r) : st.effect = Effect.allow := by
  simp only [buildControllerPolicy, List.mem_cons, List.not_mem_nil, or_false] at h
  rcases h with rfl|rfl|rfl|rfl|rfl|rfl|rfl|rfl|rfl|rfl|rfl|rfl|rfl|rfl|rfl|rfl <;> rfl

/-- Witness for C10 at a concrete input and a concrete member statement
(the pricing statement). -/
theorem buildControllerPolicy_all_statements_allow_witness :
    PolicyStatement.effect
      { sid := "AllowPricingReadActions", effect := Effect.allow
        resources := ["*"], actions := ["pricing:GetProducts"] } = Effect.allow :=
  buildControllerPolicy_all_statements_allow demoEnv "demo"
    "arn:aws:sqs:us-west-2:123:Karpenter-demo"
    "arn:aws:iam::123456789012:role/KarpenterNodeInstanceRole-demo" _
    (by simp [buildControllerPolicy])

/-- C8: in the policy returned by `buildControllerPolicy`, the statement
with sid `AllowScopedInstanceProfileTagActions` repeats identical
condition keys across its nested condition mappings: for each of the tag
keys `kubernetes.io/cluster/<clusterName>`,
`topology.kubernetes.io/region` and `karpenter.k8s.aws/ec2nodeclass`,
both the `aws:ResourceTag` and the `aws:RequestTag` variant of the key
appear, with identical required values. -/
theorem allowScopedInstanceProfileTagActions_duplicate_condition_keys
    (env : AwsEnv) (clusterName q r : String) :
    ∃ st, findStatement (buildControllerPolicy env clusterName q r)
        "AllowScopedInstanceProfileTagActions" = some st ∧
      ∃ eqPairs likePairs,
        ("StringEquals", eqPairs) ∈ st.conditions ∧
        ("StringLike", likePairs) ∈ st.conditions ∧
        ("aws:ResourceTag/kubernetes.io/cluster/" ++ clusterName, CondVal.s "owned") ∈ eqPairs ∧
        ("aws:RequestTag/kubernetes.io/cluster/" ++ clusterName, CondVal.s "owned") ∈ eqPairs ∧
        ("aws:ResourceTag/topology.kubernetes.io/region", CondVal.s env.region) ∈ eqPairs ∧
        ("aws:RequestTag/topology.kubernetes.io/region", CondVal.s env.region) ∈ eqPairs ∧
        ("aws:ResourceTag/karpenter.k8s.aws/ec2nodeclass", CondVal.s "*") ∈ likePairs ∧
        ("aws:RequestTag/karpenter.k8s.aws/ec2nodeclass", CondVal.s "*") ∈ likePairs := by
  refine ⟨_, rfl,
    [ ("aws:ResourceTag/kubernetes.io/cluster/" ++ clusterName, CondVal.s "owned")
    , ("aws:ResourceTag/topology.kubernetes.io/region", CondVal.s env.region)
    , ("aws:RequestTag/kubernetes.io/cluster/" ++ clusterName, CondVal.s "owned")
    , ("aws:RequestTag/eks:eks-cluster-name", CondVal.s clusterName)
    , ("aws:RequestTag/topology.kubernetes.io/region", CondVal.s env.region) ],
    [ ("aws:ResourceTag/karpenter.k8s.aws/ec2nodeclass", CondVal.s "*")
    , ("aws:RequestTag/karpenter.k8s.aws/ec2nodeclass", CondVal.s "*") ],
    ?_, ?_, ?_, ?_, ?_, ?_, ?_, ?_⟩ <;> simp

/-- Every `dependsOn` edge of the deployment graph strictly decreases
`nodeRank`. -/
theorem dependsOn_rank_lt (cfg : KarpenterConfig) (a b : String)
    (h : DependsOn (buildDeploymentGraph cfg) a b) : nodeRank b < nodeRank a := by
  simp only [DependsOn, buildDeploymentGraph, edges, List.map_nil, List.map_cons,
    List.nil_append, List.cons_append, List.append_nil, List.mem_cons,
    List.not_mem_nil, or_false, Prod.mk.injEq] at h
  rcases h with ⟨rfl, rfl⟩ | ⟨rfl, rfl⟩ | ⟨rfl, rfl⟩ | ⟨rfl, rfl⟩ | ⟨rfl, rfl⟩ <;> decide

/-- `nodeRank` strictly decreases along every nonempty `dependsOn` path. -/
theorem transGen_rank_lt (cfg : KarpenterConfig) {a b : String}
    (h : Relation.TransGen (DependsOn (buildDeploymentGraph cfg)) a b) :
    nodeRank b < nodeRank a := by
  induction h with
  | single h => exact dependsOn_rank_lt cfg _ _ h
  | tail _ hbc ih => exact lt_trans (dependsOn_rank_lt cfg _ _ hbc) ih

/-- C3: for every config input, the `dependsOn` relation over the
manifest nodes returned by `buildDeploymentGraph` is acyclic: no node is
reachable from itself by following a nonempty chain of `dependsOn`
edges (equivalently, the endpoints of every nonempty chain differ). -/
theorem buildDeploymentGraph_acyclic (cfg : KarpenterConfig) (a b : String)
    (h : Relation.TransGen (DependsOn (buildDeploymentGraph cfg)) a b) : a ≠ b := by
  intro heq
  subst heq
  exact lt_irrefl _ (transGen_rank_lt cfg h)

/-- Witness for C3 at the demo config and a concrete one-edge chain. -/
theorem buildDeploymentGraph_acyclic_witness :
    "KarpenterServiceAccount" ≠ "KarpenterNamespace" :=
  buildDeploymentGraph_acyclic demoConfig "KarpenterServiceAccount" "KarpenterNamespace"
    (Relation.TransGen.single
      (by simp [DependsOn, edges, buildDeploymentGraph]))

/-- C4: `buildDeploymentGraph` builds the namespace, service-account,
config-map/installer, job and custom-resource nodes in that order (the
two RBAC manifests are interleaved between the config map and the job,
with no dependency edges), and the recorded `dependsOn` edges are exactly
the chain namespace <- service account <- config map <- job together with
the two custom-resource instances depending on the job. -/
theorem buildDeploymentGraph_order_edges (cfg : KarpenterConfig) :
    List.Sublist
      [ "KarpenterNamespace", "KarpenterServiceAccount", "KarpenterController"
      , "KarpenterInstallJob", "DefaultNodePool", "DefaultNodeClass" ]
      ((buildDeploymentGraph cfg).map ManifestNode.id) ∧
    edges (buildDeploymentGraph cfg) =
      [ ("KarpenterServiceAccount", "KarpenterNamespace")
      , ("KarpenterController", "KarpenterServiceAccount")
      , ("KarpenterInstallJob", "KarpenterController")
      , ("DefaultNodePool", "KarpenterInstallJob")
      , ("DefaultNodeClass", "KarpenterInstallJob") ] := by
  constructor
  · exact List.Sublist.cons₂ _ (List.Sublist.cons₂ _ (List.Sublist.cons₂ _
      (List.Sublist.cons _ (List.Sublist.cons _ (List.Sublist.cons₂ _
        (List.Sublist.cons₂ _ (List.Sublist.cons₂ _ List.Sublist.slnil)))))))
  · rfl

/-- C1 counterexample: in the deployment graph built with cluster name
`demo`, the installer-job node's `dependsOn` set does not include the
service-account node (it consists of the config-map node alone), so the
claim that it includes the service-account node and no other node is
false. -/
theorem karpenterInstallJob_not_dependsOn_serviceAccount :
    ∃ n, findNode (buildDeploymentGraph demoConfig) "KarpenterInstallJob" = some n ∧
      "KarpenterServiceAccount" ∉ n.dependsOn ∧ n.dependsOn ≠ ["KarpenterServiceAccount"] := by
  refine ⟨_, rfl, ?_, ?_⟩ <;> decide

/-- C1 (amended): in the deployment graph built with cluster name `demo`,
the installer-job node's `dependsOn` set includes the config-map/installer
node (construct id `KarpenterController`) and no other node. -/
theorem karpenterInstallJob_dependsOn_configMap_only :
    ∃ n, findNode (buildDeploymentGraph demoConfig) "KarpenterInstallJob" = some n ∧
      n.dependsOn = ["KarpenterController"] :=
  ⟨_, rfl, rfl⟩

/-- Mapping a function over an `Except` yields an error exactly when the
original value is that error. -/
theorem except_map_error_iff {α β γ : Type} (f : α → β) (x : Except γ α) :
    (∃ e, Except.map f x = Except.error e) ↔ ∃ e, x = Except.error e := by
  cases x <;> simp [Except.map]

/-- `renderTemplate` fails (with `MissingVariable`) exactly when some
placeholder referenced by the template has no supplied value. -/
theorem renderTemplate_error_iff (t : List TemplatePart) (vars : List (String × String)) :
    (∃ e, renderTemplate t vars = Except.error e) ↔
      ∃ n, TemplatePart.var n ∈ t ∧ lookupVar vars n = none := by
  induction t with
  | nil => simp [renderTemplate]
  | cons hd rest ih =>
    cases hd with
    | lit s =>
      rw [show renderTemplate (TemplatePart.lit s :: rest) vars =
        Except.map (fun u => s ++ u) (renderTemplate rest vars) from rfl]
      rw [except_map_error_iff, ih]
      constructor
      · rintro ⟨n, hn, hl⟩
        exact ⟨n, List.mem_cons_of_mem _ hn, hl⟩
      · rintro ⟨n, hn, hl⟩
        rcases List.mem_cons.mp hn with h | h
        · cases h
        · exact ⟨n, h, hl⟩
    | var m =>
      rcases hval : lookupVar vars m with _ | v
      · rw [show renderTemplate (TemplatePart.var m :: rest) vars =
          Except.error (RenderError.MissingVariable m) from by
            simp [renderTemplate, hval]]
        constructor
        · intro _
          exact ⟨m, List.mem_cons_self _ _, hval⟩
        · intro _
          exact ⟨_, rfl⟩
      · rw [show renderTemplate (TemplatePart.var m :: rest) vars =
          Except.map (fun u => v ++ u) (renderTemplate rest vars) from by
            simp [renderTemplate, hval]]
        rw [except_map_error_iff, ih]
        constructor
        · rintro ⟨n, hn, hl⟩
          exact ⟨n, List.mem_cons_of_mem _ hn, hl⟩
        · rintro ⟨n, hn, hl⟩
          rcases List.mem_cons.mp hn with h | h
          · cases h
            rw [hval] at hl
            cases hl
          · exact ⟨n, h, hl⟩

/-- Supplying values for both placeholders of the userdata script renders
it successfully, with the `CLUSTER_NAME` value substituted right after
the `/etc/eks/bootstrap.sh ` text that ends the chunk before it. -/
theorem nodeGroupUserdata_renders_with_both_vars :
    renderTemplate nodeGroupUserdataTemplate
        [("CLUSTER_NAME", "demo"), ("CRUN_VERSION", "1.8.7")] =
      Except.ok (userDataChunkA ++ ("1.8.7" ++ (userDataChunkB ++ ("1.8.7" ++
        (userDataChunkC ++ ("demo" ++ (userDataChunkD ++ ""))))))) := rfl

/-- C6: evaluation at the failing input.  The `template_file.user_data`
data source supplies only `CLUSTER_NAME`, but the script file references
the placeholder `CRUN_VERSION` (a shell variable of the script left
unescaped in the template), so rendering the rootless-build userdata
template with `CLUSTER_NAME = "demo"` does not succeed: it fails with
`MissingVariable "CRUN_VERSION"`. -/
theorem nodeGroupUserdata_missing_crun_version :
    renderTemplate nodeGroupUserdataTemplate (templateFileUserDataVars "demo") =
      Except.error (RenderError.MissingVariable "CRUN_VERSION") := rfl

/-- C7: `renderTemplate` is deterministic over its two arguments:
rendering twice with the same template and the same variable mapping
yields identical output. -/
theorem renderTemplate_deterministic (t t' : List TemplatePart)
    (vars vars' : List (String × String)) (ht : t = t') (hv : vars = vars') :
    renderTemplate t vars = renderTemplate t' vars' := by
  subst ht; subst hv; rfl

/-- Witness for C7 at the userdata template and a concrete mapping. -/
theorem renderTemplate_deterministic_witness :
    renderTemplate nodeGroupUserdataTemplate (templateFileUserDataVars "demo") =
      renderTemplate nodeGroupUserdataTemplate (templateFileUserDataVars "demo") :=
  renderTemplate_deterministic nodeGroupUserdataTemplate nodeGroupUserdataTemplate
    (templateFileUserDataVars "demo") (templateFileUserDataVars "demo") rfl rfl
